import Mathlib

/-!
Verification of the KST101 motor-driver protocol engine (`MotorDriver.py`).

The development shallowly embeds the parts of the driver that the
specification describes: the frame codec (`__send_short`, `__send_long`,
`set_move`, the header unpack in `__recv`), the status-payload decoder
(`__decode_status`), one iteration of the receiver loop body (`__recv`,
steps after bytes have been appended to the buffer), the status-bit
queries (`get_home_state`, `is_moving`, `is_lower_limit`,
`is_upper_limit`), and the lock-sliced interleaving of receiver writes
with API reads of the shared motion state.

Bytes are modelled as `Nat` (values < 256 on the wire), byte strings as
`List Nat`, the Python `struct` integer codes as explicit little-endian
arithmetic, and `struct.error` (raised on a size mismatch or an
out-of-range pack argument) as `Option.none`.
-/

namespace KST101

/-- Message id constants from `MotorDriver.py` lines 20-30. -/
def MGMSG_HW_START_UPDATEMSGS : Nat := 0x0011

def MGMSG_HW_STOP_UPDATEMSGS : Nat := 0x0012

def MGMSG_MOD_IDENTIFY : Nat := 0x0223

def MGMSG_MOT_MOVE_HOME : Nat := 0x0443

def MGMSG_MOT_MOVE_HOMED : Nat := 0x0444

def MGMSG_MOT_SET_MOVERELPARAMS : Nat := 0x0445

def MGMSG_MOT_MOVE_RELATIVE : Nat := 0x0448

def MGMSG_MOT_SET_MOVEABSPARAMS : Nat := 0x0450

def MGMSG_MOT_MOVE_ABSOLUTE : Nat := 0x0453

def MGMSG_MOT_MOVE_COMPLETED : Nat := 0x0464

def MGMSG_MOT_GET_STATUSUPDATE : Nat := 0x0481

/-- Status register masks (`MotorDriver.py` lines 33-37). -/
def STATUS_HOMING : Nat := 0x200

def STATUS_HOMED : Nat := 0x400

def STATUS_MOVING : Nat := 0x0F0

def STATUS_LLIM : Nat := 0x001

def STATUS_ULIM : Nat := 0x002

/-- `self.__src = 0x01` — the PC-side endpoint id (`MotorDriver.py` line 68). -/
def localSource : Nat := 0x01

/-- `self.__dst = 0x50` — the default motor address (`MotorDriver.py` lines 52, 69). -/
def remoteDestination : Nat := 0x50

/-- `self.__chan = 0x01` — the single configured motion channel (`MotorDriver.py` line 66). -/
def chanCfg : Nat := 0x01

/-! ### Little-endian integer codes of the Python `struct` formats -/

/-- Wire bytes of an unsigned 16-bit little-endian value (`struct` code `<H`). -/
def packLE16 (n : Nat) : List Nat := [n % 256, n / 256 % 256]

/-- Wire bytes of an unsigned 32-bit little-endian value. -/
def packLE32 (n : Nat) : List Nat :=
  [n % 256, n / 256 % 256, n / 65536 % 256, n / 16777216 % 256]

/-- Twos-complement 32-bit image of a signed value (`struct` code `<l` on pack). -/
def toU32 (v : Int) : Nat := (v % 4294967296).toNat

/-- Wire bytes of a signed 32-bit little-endian value (`struct` code `<l`). -/
def packSLE32 (v : Int) : List Nat := packLE32 (toU32 v)

/-- Value of two little-endian bytes (`struct` code `<H` on unpack). -/
def readLE16 (a b : Nat) : Nat := a + 256 * b

/-- Value of four little-endian bytes (`struct` code `<L` on unpack). -/
def readLE32 (a b c d : Nat) : Nat := a + 256 * b + 65536 * c + 16777216 * d

/-- Signed reading of a 32-bit value (`struct` code `<l` on unpack). -/
def toI32 (n : Nat) : Int := if n < 2147483648 then (n : Int) else (n : Int) - 4294967296

/-! ### Frame codec -/

/-- The bytes `__send_short` writes: `struct.pack("<HBBBB", msg_id, param1,
param2, dst, src)` (`MotorDriver.py` lines 82-83), generalised over the
destination and source bytes the instance fields supply; `none` models the
`struct.error` raised when an argument is out of range for its code. -/
def encodeShort (msg_id param1 param2 dst src : Nat) : Option (List Nat) :=
  if msg_id < 65536 ∧ param1 < 256 ∧ param2 < 256 ∧ dst < 256 ∧ src < 256 then
    some (packLE16 msg_id ++ [param1, param2, dst, src])
  else none

/-- The bytes `__send_long` writes: `struct.pack("<HHBB", msg_id, len(data),
dst | 0x80, src) + data` with the instance values `dst = 0x50`, `src = 0x01`
(`MotorDriver.py` lines 95-97). -/
def encodeLong (msg_id : Nat) (data : List Nat) : Option (List Nat) :=
  if msg_id < 65536 ∧ data.length < 65536 then
    some (packLE16 msg_id ++ packLE16 data.length ++
          [remoteDestination ||| 0x80, localSource] ++ data)
  else none

/-- Header unpack from `__recv`: `struct.unpack("<HBBBB", in_buffer[0:6])`,
guarded in the code by `len(in_buffer) < 6` (`MotorDriver.py` lines 130-132).
Returns `(msg_id, param1, param2, dst, src)`. -/
def parseHeader (buf : List Nat) : Option (Nat × Nat × Nat × Nat × Nat) :=
  match buf with
  | b0 :: b1 :: b2 :: b3 :: b4 :: b5 :: _ => some (readLE16 b0 b1, b2, b3, b4, b5)
  | _ => none

/-- Frame length as `__recv` computes it (`MotorDriver.py` lines 133-137):
`msg_len = 6`, then `if dst | 0x80: msg_len += (param2 << 8) | param1`.
The condition is transcribed exactly as written in the source. -/
def frameLength (param1 param2 dst : Nat) : Nat :=
  if (dst ||| 0x80) ≠ 0 then 6 + ((param2 <<< 8) ||| param1) else 6

/-- Destination byte after the long-format branch of `__recv`
(`MotorDriver.py` lines 134-136): `if dst | 0x80: dst &= 0x7F`. -/
def maskDst (dst : Nat) : Nat :=
  if (dst ||| 0x80) ≠ 0 then dst &&& 0x7F else dst

/-! ### Status payload decoding and shared state -/

/-- Payload unpack in `__decode_status`: `struct.unpack("<HllL", data)`
(`MotorDriver.py` line 108). The fixed size of the format is 2 + 4 + 4 + 4 = 14
bytes; any other input length raises `struct.error`, modelled as `none`.
Returns `(chan, pos, enc, status)`. -/
def unpack_HllL (data : List Nat) : Option (Nat × Int × Int × Nat) :=
  if h : data.length = 14 then
    some (readLE16 data[0] data[1],
          toI32 (readLE32 data[2] data[3] data[4] data[5]),
          toI32 (readLE32 data[6] data[7] data[8] data[9]),
          readLE32 data[10] data[11] data[12] data[13])
  else none

/-- The cross-thread motion record: `self.__pos` and `self.__status`,
guarded by `self.__param_lock` (`MotorDriver.py` lines 62-64). -/
structure SharedState where
  pos : Int
  status : Nat
deriving DecidableEq, Repr

/-- The sentinel initial state: `__pos = -1`, `__status = 0xFFFFFFFF`
(`MotorDriver.py` lines 62-63). -/
def initState : SharedState := ⟨-1, 0xFFFFFFFF⟩

/-- `__decode_status` (`MotorDriver.py` lines 103-115): unpack the payload,
ignore it if the channel is not the configured one, otherwise overwrite both
shared fields inside one lock-held critical section. `none` models the
uncaught `struct.error` of a wrong-sized payload. -/
def decode_status (st : SharedState) (data : List Nat) : Option SharedState :=
  match unpack_HllL data with
  | none => none
  | some (chan, pos, _, status) =>
    if chan ≠ chanCfg then some st else some ⟨pos, status⟩

/-! ### One iteration of the receiver loop -/

/-- Result of one pass over the receive buffer: either the loop continues
with a new buffer and shared state, or an uncaught exception terminates the
receiver thread. -/
inductive RecvResult where
  | ok (buf : List Nat) (st : SharedState)
  | crash
deriving DecidableEq, Repr

/-- One iteration of the `__recv` loop body (`MotorDriver.py` lines 130-159),
after the read bytes have been appended to `in_buffer`: header parse, frame
length, address check (coarse resync to an empty buffer on mismatch),
completeness check, and dispatch on the message id (the unrecognised case
also drops the whole buffer). -/
def recvStep (st : SharedState) (buf : List Nat) : RecvResult :=
  match parseHeader buf with
  | none => .ok buf st
  | some (msg_id, param1, param2, dst0, src) =>
    let dst := maskDst dst0
    let msg_len := frameLength param1 param2 dst0
    if dst ≠ localSource ∨ src ≠ remoteDestination then .ok [] st
    else if buf.length < msg_len then .ok buf st
    else if msg_id = MGMSG_MOT_GET_STATUSUPDATE then
      match decode_status st ((buf.take msg_len).drop 6) with
      | some st2 => .ok (buf.drop msg_len) st2
      | none => .crash
    else if msg_id = MGMSG_MOT_MOVE_COMPLETED then .ok (buf.drop msg_len) st
    else if msg_id = MGMSG_MOT_MOVE_HOMED then .ok (buf.drop msg_len) st
    else .ok [] st

/-! ### Command API -/

/-- Payload built by `set_move`: `struct.pack("<Hl", self.__chan, dist)`
(`MotorDriver.py` line 187); `none` models the `struct.error` on an
out-of-range argument. -/
def pack_Hl (chan : Nat) (dist : Int) : Option (List Nat) :=
  if chan < 65536 ∧ -2147483648 ≤ dist ∧ dist < 2147483648 then
    some (packLE16 chan ++ packSLE32 dist)
  else none

/-- The long frame `set_move` sends (`MotorDriver.py` lines 179-188):
message id `SET_MOVERELPARAMS` when relative else `SET_MOVEABSPARAMS`,
payload `channel:u16` then `distance:i32`, both little-endian. -/
def set_move (dist : Int) (rel : Bool) : Option (List Nat) :=
  let cmd := if rel then MGMSG_MOT_SET_MOVERELPARAMS else MGMSG_MOT_SET_MOVEABSPARAMS
  match pack_Hl chanCfg dist with
  | none => none
  | some data => encodeLong cmd data

/-- Decoding of a move-parameters payload: the `<H` then `<l` unpack applied
to a 6-byte slice, exactly the channel/position prefix pattern of the
`<HllL` unpack in `__decode_status`. Returns `(chan, dist)`. -/
def decodeMovePayload (data : List Nat) : Option (Nat × Int) :=
  if h : data.length = 6 then
    some (readLE16 data[0] data[1],
          toI32 (readLE32 data[2] data[3] data[4] data[5]))
  else none

/-- `get_home_state` (`MotorDriver.py` lines 214-227) as a function of the
raw status word: 2 while homing, 1 when homing is needed, 0 when homed. -/
def get_home_state (raw_status : Nat) : Nat :=
  let is_home := raw_status &&& STATUS_HOMED
  let is_homing := raw_status &&& STATUS_HOMING
  if is_homing ≠ 0 then 2
  else if is_home = 0 then 1
  else 0

/-- `is_moving` (`MotorDriver.py` lines 229-233) as a function of the raw
status word: in Python, `bool(x)` is `x ≠ 0`. -/
def is_moving (raw_status : Nat) : Bool := (raw_status &&& STATUS_MOVING) ≠ 0

/-- `is_lower_limit` (`MotorDriver.py` lines 235-239). -/
def is_lower_limit (raw_status : Nat) : Bool := (raw_status &&& STATUS_LLIM) ≠ 0

/-- `is_upper_limit` (`MotorDriver.py` lines 241-245). -/
def is_upper_limit (raw_status : Nat) : Bool := (raw_status &&& STATUS_ULIM) ≠ 0

/-! ### Lock-sliced interleaving of shared-state accesses

Every access to `__pos`/`__status` in the source happens inside a critical
section of `__param_lock`: the receiver write of both fields in
`__decode_status` (lines 112-115), the read of `__pos` in `get_pos` (lines
202-204) and the read of `__status` in `get_raw_status` (lines 209-211).
An interleaving of threads is therefore a sequence of these three atomic
events; no event can observe the shared record in the middle of another. -/

/-- One atomic (lock-held) access to the shared motion state. -/
inductive Event where
  | update (p : Int) (s : Nat)
  | readPos
  | readStatus
deriving DecidableEq, Repr

/-- Effect of one atomic event on the shared record: the receiver update
writes both fields inside a single critical section; reads leave it alone. -/
def applyEvent (st : SharedState) : Event → SharedState
  | .update p s => ⟨p, s⟩
  | .readPos => st
  | .readStatus => st

/-- Shared record after a sequence of atomic events. -/
def runEvents (st : SharedState) (es : List Event) : SharedState :=
  es.foldl applyEvent st

/-- The pair a caller assembles from two separate API calls: `get_pos` after
the events `pre` have happened, then `get_raw_status` after the further
events `mid` have happened (each call is its own critical section). -/
def observedPair (init : SharedState) (pre mid : List Event) : Int × Nat :=
  ((runEvents init pre).pos, (runEvents init (pre ++ mid)).status)

/-! ### Supporting lemmas -/

/-- Any byte value or-ed with `0x80` is non-zero, so the Python condition
`if dst | 0x80:` is true for every destination byte. -/
lemma lor128_ne_zero (b : Nat) : (b ||| 128) ≠ 0 := by
  intro h
  have h7 := Nat.testBit_lor b 128 7
  rw [h] at h7
  rw [show Nat.testBit 128 7 = true from by decide] at h7
  simp at h7

/-- The long-format branch of `__recv` always fires: the destination byte is
always masked. -/
lemma maskDst_eq (b : Nat) : maskDst b = b &&& 0x7F := by
  unfold maskDst
  rw [if_pos (lor128_ne_zero b)]

/-- The long-format branch of `__recv` always fires: the length field is
always added to the frame length. -/
lemma frameLength_eq (p1 p2 d : Nat) :
    frameLength p1 p2 d = 6 + ((p2 <<< 8) ||| p1) := by
  unfold frameLength
  rw [if_pos (lor128_ne_zero d)]

/-- Reading back the two little-endian bytes of a 16-bit value. -/
lemma readLE16_packLE16 (n : Nat) (h : n < 65536) :
    readLE16 (n % 256) (n / 256 % 256) = n := by
  unfold readLE16
  omega

/-- The twos-complement image of an i32 value fits in 32 bits. -/
lemma toU32_lt (v : Int) : toU32 v < 4294967296 := by
  unfold toU32
  omega

/-- Reading back the four little-endian bytes of a 32-bit value. -/
lemma readLE32_packLE32 (n : Nat) (h : n < 4294967296) :
    readLE32 (n % 256) (n / 256 % 256) (n / 65536 % 256) (n / 16777216 % 256) = n := by
  unfold readLE32
  omega

/-- Signed reading inverts the twos-complement image on the i32 range. -/
lemma toI32_toU32 (v : Int) (h1 : -2147483648 ≤ v) (h2 : v < 2147483648) :
    toI32 (toU32 v) = v := by
  unfold toI32 toU32
  split <;> omega

/-! ### Claim theorems -/

/-- C1: the claim states that the computed frame length is 6 when the
destination high bit is clear. The code tests `if dst | 0x80:`, which is
true for every byte, so the length field from `param1`/`param2` is added
even for a short-frame header: on the header of a short `MOVE_HOMED` frame
(`param1 = 0x01`, `param2 = 0x00`, `dst = 0x01`, high bit clear) the code
computes frame length 7, not the claimed 6 (the intended test, per the
long-format comments in the code and the `dst &= 0x7F` mask, is
`dst & 0x80`). -/
theorem C1_frameLength_short_header_eval :
    frameLength 0x01 0x00 0x01 = 7 ∧ frameLength 0x01 0x00 0x01 ≠ 6 := by
  decide

/-- C4: for every 32-bit status value, `get_home_state` returns 2 (Homing)
whenever bit `0x200` is set, regardless of bit `0x400`; otherwise 1
(NeedsHoming) when bit `0x400` is clear; otherwise 0 (Homed). -/
theorem C4_get_home_state_cases (s : Nat) (_h32 : s < 4294967296) :
    (s &&& STATUS_HOMING ≠ 0 → get_home_state s = 2) ∧
    (s &&& STATUS_HOMING = 0 → s &&& STATUS_HOMED = 0 → get_home_state s = 1) ∧
    (s &&& STATUS_HOMING = 0 → s &&& STATUS_HOMED ≠ 0 → get_home_state s = 0) := by
  unfold get_home_state
  refine ⟨fun h => ?_, fun h h2 => ?_, fun h h2 => ?_⟩
  · simp [h]
  · simp [h, h2]
  · simp [h, h2]

/-- C4 witness: the three branches evaluated at `0x200`, `0x000`, `0x400`. -/
theorem C4_get_home_state_cases_witness :
    get_home_state 0x200 = 2 ∧ get_home_state 0x000 = 1 ∧ get_home_state 0x400 = 0 :=
  ⟨(C4_get_home_state_cases 0x200 (by decide)).1 (by decide),
   (C4_get_home_state_cases 0x000 (by decide)).2.1 (by decide) (by decide),
   (C4_get_home_state_cases 0x400 (by decide)).2.2 (by decide) (by decide)⟩

/-- C9: for every 32-bit status value, `is_moving` is true exactly when
`status & 0x0F0 ≠ 0`, `is_lower_limit` exactly when `status & 0x001 ≠ 0`,
and `is_upper_limit` exactly when `status & 0x002 ≠ 0`. -/
theorem C9_motion_bit_masks (s : Nat) (_h32 : s < 4294967296) :
    (is_moving s = true ↔ s &&& 0x0F0 ≠ 0) ∧
    (is_lower_limit s = true ↔ s &&& 0x001 ≠ 0) ∧
    (is_upper_limit s = true ↔ s &&& 0x002 ≠ 0) := by
  unfold is_moving is_lower_limit is_upper_limit STATUS_MOVING STATUS_LLIM STATUS_ULIM
  simp

/-- C9 witness: the examples of the spec, `0x010` is moving and `0x200` is not,
instantiated through the theorem. -/
theorem C9_motion_bit_masks_witness :
    ((is_moving 0x010 = true ↔ 0x010 &&& 0x0F0 ≠ 0) ∧
     (is_lower_limit 0x010 = true ↔ 0x010 &&& 0x001 ≠ 0) ∧
     (is_upper_limit 0x010 = true ↔ 0x010 &&& 0x002 ≠ 0)) ∧
    ((is_moving 0x200 = true ↔ 0x200 &&& 0x0F0 ≠ 0) ∧
     (is_lower_limit 0x200 = true ↔ 0x200 &&& 0x001 ≠ 0) ∧
     (is_upper_limit 0x200 = true ↔ 0x200 &&& 0x002 ≠ 0)) :=
  ⟨C9_motion_bit_masks 0x010 (by decide), C9_motion_bit_masks 0x200 (by decide)⟩

/-- C7: a successfully unpacked status payload updates the shared state only
when its channel equals the configured channel 1; for any other channel the
decode returns the state unchanged (and does not fail). -/
theorem C7_channel_filter (st : SharedState) (data : List Nat)
    (chan : Nat) (pos enc : Int) (status : Nat)
    (hu : unpack_HllL data = some (chan, pos, enc, status)) :
    (chan ≠ chanCfg → decode_status st data = some st) ∧
    (chan = chanCfg → decode_status st data = some ⟨pos, status⟩) := by
  unfold decode_status
  rw [hu]
  refine ⟨fun h => ?_, fun h => ?_⟩ <;> simp [h]

/-- C7 witness: a 14-byte payload for channel 2 leaves the initial state
unchanged, and the same payload with channel 1 installs its fields. -/
theorem C7_channel_filter_witness :
    decode_status initState [2, 0, 7, 0, 0, 0, 0, 0, 0, 0, 5, 0, 0, 0] = some initState ∧
    decode_status initState [1, 0, 7, 0, 0, 0, 0, 0, 0, 0, 5, 0, 0, 0] = some ⟨7, 5⟩ :=
  ⟨(C7_channel_filter initState _ 2 7 0 5 (by decide)).1 (by decide),
   (C7_channel_filter initState _ 1 7 0 5 (by decide)).2 (by decide)⟩

/-- C3 counterexample: the claim says both fields are written *and read*
atomically as a single unit, so a reader never assembles a pair mixing two
updates. The write is one critical section, but the API reads the pair
field-by-field (`get_pos` and `get_raw_status` each take the lock
separately): a caller who reads the position before the single receiver
write of `(100, 5)` and the status after it observes `(-1, 5)`, which is
neither the initial pair `(-1, 0xFFFFFFFF)` nor the written pair
`(100, 5)`. -/
theorem C3_two_call_read_mixes_updates :
    observedPair initState [Event.readPos] [Event.update 100 5, Event.readStatus] = (-1, 5) ∧
    ((-1 : Int), (5 : Nat)) ≠ (initState.pos, initState.status) ∧
    ((-1 : Int), (5 : Nat)) ≠ ((100 : Int), (5 : Nat)) := by
  decide

/-- C3 amended: each access to the shared record is one lock-held critical
section, and the receiver write sets both fields inside a single such
section, so after any interleaving of updates and reads the shared record
always equals the initial pair or exactly the pair written by one update —
a reader of the record never sees position from one update together with
statusBits from another; but the two API reads are separate critical
sections, so the pair a caller assembles from both calls is not an atomic
unit (see the counterexample). -/
theorem C3_amended_shared_pair_never_torn (init : SharedState) (es : List Event) :
    runEvents init es = init ∨
      ∃ p s, Event.update p s ∈ es ∧ runEvents init es = ⟨p, s⟩ := by
  induction es using List.reverseRecOn with
  | nil => exact Or.inl rfl
  | append_singleton es e ih =>
    have hrun : runEvents init (es ++ [e]) = applyEvent (runEvents init es) e := by
      simp [runEvents, List.foldl_append]
    cases e with
    | update p s =>
      exact Or.inr ⟨p, s, by simp, by rw [hrun]; rfl⟩
    | readPos =>
      rcases ih with h | ⟨p, s, hm, he⟩
      · exact Or.inl (by rw [hrun, h]; rfl)
      · exact Or.inr ⟨p, s, by simp [hm], by rw [hrun, he]; rfl⟩
    | readStatus =>
      rcases ih with h | ⟨p, s, hm, he⟩
      · exact Or.inl (by rw [hrun, h]; rfl)
      · exact Or.inr ⟨p, s, by simp [hm], by rw [hrun, he]; rfl⟩

/-- C2: a received frame whose checked destination (`dst & 0x7F` — the high
bit is long-format metadata, not address) differs from
`localSource = 0x01`, or whose source byte differs from
`remoteDestination = 0x50`, makes the receiver discard the entire
accumulated buffer and return to Seeking (empty buffer, fewer than 6
bytes), with the shared motion state unchanged — regardless of the message
id, so in particular for a foreign-addressed status-update frame. -/
theorem C2_address_filter_discards_buffer (st : SharedState)
    (b0 b1 b2 b3 b4 b5 : Nat) (rest : List Nat)
    (h : b4 &&& 0x7F ≠ localSource ∨ b5 ≠ remoteDestination) :
    recvStep st (b0 :: b1 :: b2 :: b3 :: b4 :: b5 :: rest) = .ok [] st := by
  simp only [recvStep, parseHeader, maskDst_eq]
  rw [if_pos h]

/-- C2 witness: a complete status-update frame addressed to destination
`0x02` is dropped whole and leaves the initial state untouched. -/
theorem C2_address_filter_discards_buffer_witness :
    recvStep initState
      (0x81 :: 0x04 :: 14 :: 0 :: 0x02 :: 0x50 ::
        [1, 0, 7, 0, 0, 0, 0, 0, 0, 0, 5, 0, 0, 0]) = .ok [] initState :=
  C2_address_filter_discards_buffer initState 0x81 0x04 14 0 0x02 0x50 _ (by decide)

/-- C8: a complete, correctly addressed frame whose message id is none of
status-update (`0x0481`), move-completed (`0x0464`) or move-homed
(`0x0444`) makes the receiver discard the entire buffer (not just the
frame) and return to Seeking, without touching the shared state and
without surfacing any error (the iteration result is a normal `ok`). -/
theorem C8_unrecognised_id_discards_buffer (st : SharedState)
    (b0 b1 b2 b3 b4 b5 : Nat) (rest : List Nat)
    (haddr1 : b4 &&& 0x7F = localSource) (haddr2 : b5 = remoteDestination)
    (hcomplete : 6 + ((b3 <<< 8) ||| b2) ≤ (b0 :: b1 :: b2 :: b3 :: b4 :: b5 :: rest).length)
    (h1 : readLE16 b0 b1 ≠ MGMSG_MOT_GET_STATUSUPDATE)
    (h2 : readLE16 b0 b1 ≠ MGMSG_MOT_MOVE_COMPLETED)
    (h3 : readLE16 b0 b1 ≠ MGMSG_MOT_MOVE_HOMED) :
    recvStep st (b0 :: b1 :: b2 :: b3 :: b4 :: b5 :: rest) = .ok [] st := by
  simp only [recvStep, parseHeader, maskDst_eq, frameLength_eq]
  rw [if_neg (by simp [haddr1, haddr2]), if_neg (by omega),
    if_neg h1, if_neg h2, if_neg h3]

/-- C8 witness: a complete, correctly addressed short `HW_START_UPDATEMSGS`
frame (id `0x0011`, not a recognised inbound id) clears the whole buffer. -/
theorem C8_unrecognised_id_discards_buffer_witness :
    recvStep initState (0x11 :: 0x00 :: 0 :: 0 :: 0x01 :: 0x50 :: []) = .ok [] initState :=
  C8_unrecognised_id_discards_buffer initState 0x11 0x00 0 0 0x01 0x50 []
    (by decide) (by decide) (by decide) (by decide) (by decide) (by decide)

/-- The payload slice `in_buffer[6:msg_len]` of a buffer holding a 6-byte
header followed by the rest of the stream. -/
lemma slice_payload (L : Nat) (c0 c1 c2 c3 c4 c5 : Nat) (rest : List Nat) :
    ((c0 :: c1 :: c2 :: c3 :: c4 :: c5 :: rest).take (6 + L)).drop 6 = rest.take L := by
  show (([c0, c1, c2, c3, c4, c5] ++ rest).take
          ([c0, c1, c2, c3, c4, c5].length + L)).drop [c0, c1, c2, c3, c4, c5].length
        = rest.take L
  rw [List.take_append, List.drop_left]

/-- C10 counterexample: the claim fixes the status payload size at 12 bytes,
but the `<HllL` format is 2 + 4 + 4 + 4 = 14 bytes: a 12-byte payload makes
the unpack raise (modelled `none`) and a 14-byte payload succeeds. -/
theorem C10_twelve_byte_size_refuted :
    unpack_HllL (List.replicate 12 0) = none ∧
    unpack_HllL (List.replicate 14 0) = some (0, 0, 0, 0) := by
  decide

/-- C10 amended: the status-payload decode is total only under the
precondition that the payload slice is exactly 14 bytes (the fixed size of
`channel:u16, position:i32, encoderCount:i32, statusBits:u32`); a
correctly addressed, complete status-update frame whose declared payload
length differs from 14 makes the fixed-size unpack fail, terminating the
receiver loop instead of resynchronizing. -/
theorem C10_amended_status_unpack_size (st : SharedState) (b2 b3 : Nat)
    (rest : List Nat)
    (hlen : (b3 <<< 8) ||| b2 ≤ rest.length)
    (hne : (b3 <<< 8) ||| b2 ≠ 14) :
    recvStep st (0x81 :: 0x04 :: b2 :: b3 :: 0x81 :: 0x50 :: rest) = .crash ∧
    ∀ data : List Nat, (unpack_HllL data).isSome ↔ data.length = 14 := by
  constructor
  · simp only [recvStep, parseHeader, maskDst_eq, frameLength_eq]
    rw [if_neg (by decide), if_neg (by simp; omega),
      if_pos (show readLE16 0x81 0x04 = MGMSG_MOT_GET_STATUSUPDATE from by decide),
      slice_payload]
    have hd : decode_status st (rest.take ((b3 <<< 8) ||| b2)) = none := by
      unfold decode_status unpack_HllL
      rw [dif_neg (by simp [List.length_take]; omega)]
    rw [hd]
  · intro data
    unfold unpack_HllL
    split <;> simp_all

/-- C10 amended witness: a status frame declaring a 12-byte payload (the
size the claim asserts) crashes the receiver iteration. -/
theorem C10_amended_status_unpack_size_witness :
    recvStep initState
        (0x81 :: 0x04 :: 12 :: 0 :: 0x81 :: 0x50 :: List.replicate 12 0) = .crash ∧
    ∀ data : List Nat, (unpack_HllL data).isSome ↔ data.length = 14 :=
  C10_amended_status_unpack_size initState 12 0 (List.replicate 12 0)
    (by decide) (by decide)

/-- C5: encoding a short frame with in-range arguments and parsing back its
6-byte header recovers the message id, both byte parameters, the
destination byte and the source byte exactly. -/
theorem C5_short_frame_roundtrip (msg_id p1 p2 dst src : Nat)
    (hm : msg_id < 65536) (h1 : p1 < 256) (h2 : p2 < 256)
    (hd : dst < 256) (hs : src < 256) :
    ∃ bs, encodeShort msg_id p1 p2 dst src = some bs ∧
      parseHeader bs = some (msg_id, p1, p2, dst, src) := by
  refine ⟨packLE16 msg_id ++ [p1, p2, dst, src], ?_, ?_⟩
  · unfold encodeShort
    rw [if_pos ⟨hm, h1, h2, hd, hs⟩]
  · show some (readLE16 (msg_id % 256) (msg_id / 256 % 256), p1, p2, dst, src) =
        some (msg_id, p1, p2, dst, src)
    rw [readLE16_packLE16 msg_id hm]

/-- C5 witness: the round trip at the short `MOVE_HOME` frame the driver
sends for channel 1. -/
theorem C5_short_frame_roundtrip_witness :
    ∃ bs, encodeShort 0x0443 0x01 0x00 0x50 0x01 = some bs ∧
      parseHeader bs = some (0x0443, 0x01, 0x00, 0x50, 0x01) :=
  C5_short_frame_roundtrip 0x0443 0x01 0x00 0x50 0x01
    (by decide) (by decide) (by decide) (by decide) (by decide)

/-- Decoding the `channel:u16, distance:i32` payload built by `set_move`
recovers the channel and the signed distance. -/
lemma decodeMovePayload_pack (chan : Nat) (dist : Int) (hc : chan < 65536)
    (hlo : -2147483648 ≤ dist) (hhi : dist < 2147483648) :
    decodeMovePayload (packLE16 chan ++ packSLE32 dist) = some (chan, dist) := by
  unfold decodeMovePayload packLE16 packSLE32 packLE32
  rw [dif_pos (by rfl)]
  show some (readLE16 (chan % 256) (chan / 256 % 256),
        toI32 (readLE32 (toU32 dist % 256) (toU32 dist / 256 % 256)
          (toU32 dist / 65536 % 256) (toU32 dist / 16777216 % 256))) = _
  rw [readLE16_packLE16 chan hc, readLE32_packLE32 _ (toU32_lt dist),
    toI32_toU32 dist hlo hhi]

/-- C6: for every in-range distance and either move mode, the long frame
built by `set_move` carries message id `SET_MOVERELPARAMS` when relative
else `SET_MOVEABSPARAMS`, and decoding its payload recovers the configured
channel and the original distance. -/
theorem C6_set_move_roundtrip (dist : Int) (rel : Bool)
    (hlo : -2147483648 ≤ dist) (hhi : dist < 2147483648) :
    ∃ frame, set_move dist rel = some frame ∧
      parseHeader frame =
        some ((if rel then MGMSG_MOT_SET_MOVERELPARAMS else MGMSG_MOT_SET_MOVEABSPARAMS),
              6, 0, remoteDestination ||| 0x80, localSource) ∧
      decodeMovePayload (frame.drop 6) = some (chanCfg, dist) := by
  have hpay : pack_Hl chanCfg dist = some (packLE16 chanCfg ++ packSLE32 dist) := by
    unfold pack_Hl
    rw [if_pos ⟨by decide, hlo, hhi⟩]
  cases rel
  · refine ⟨packLE16 MGMSG_MOT_SET_MOVEABSPARAMS ++ packLE16 6 ++
        [remoteDestination ||| 0x80, localSource] ++
        (packLE16 chanCfg ++ packSLE32 dist), ?_, ?_, ?_⟩
    · simp only [set_move, hpay]
      rfl
    · show some (readLE16 (MGMSG_MOT_SET_MOVEABSPARAMS % 256)
            (MGMSG_MOT_SET_MOVEABSPARAMS / 256 % 256), 6 % 256, 6 / 256 % 256,
            remoteDestination ||| 0x80, localSource) = _
      rw [readLE16_packLE16 MGMSG_MOT_SET_MOVEABSPARAMS (by decide)]
      rfl
    · show decodeMovePayload (packLE16 chanCfg ++ packSLE32 dist) = _
      exact decodeMovePayload_pack chanCfg dist (by decide) hlo hhi
  · refine ⟨packLE16 MGMSG_MOT_SET_MOVERELPARAMS ++ packLE16 6 ++
        [remoteDestination ||| 0x80, localSource] ++
        (packLE16 chanCfg ++ packSLE32 dist), ?_, ?_, ?_⟩
    · simp only [set_move, hpay]
      rfl
    · show some (readLE16 (MGMSG_MOT_SET_MOVERELPARAMS % 256)
            (MGMSG_MOT_SET_MOVERELPARAMS / 256 % 256), 6 % 256, 6 / 256 % 256,
            remoteDestination ||| 0x80, localSource) = _
      rw [readLE16_packLE16 MGMSG_MOT_SET_MOVERELPARAMS (by decide)]
      rfl
    · show decodeMovePayload (packLE16 chanCfg ++ packSLE32 dist) = _
      exact decodeMovePayload_pack chanCfg dist (by decide) hlo hhi

/-- C6 witness: the round trip at distance `-100` relative, the kind of
value the interactive harness sends when stepping backwards. -/
theorem C6_set_move_roundtrip_witness :
    ∃ frame, set_move (-100) true = some frame ∧
      parseHeader frame =
        some ((if true then MGMSG_MOT_SET_MOVERELPARAMS else MGMSG_MOT_SET_MOVEABSPARAMS),
              6, 0, remoteDestination ||| 0x80, localSource) ∧
      decodeMovePayload (frame.drop 6) = some (chanCfg, -100) :=
  C6_set_move_roundtrip (-100) true (by decide) (by decide)

end KST101
